import Mathlib

/-!
Shallow embedding of the course-enrollment Flask application (`src/app.py`)
of the repository `proyecto-cursos`, together with proofs settling the
specification claims about it.

Modelling conventions:
* Each SQLAlchemy table (`Usuario`, `Categoria`, `Curso`, `Video`,
  `Inscripcion`, declared at `app.py:40-82`) becomes a Lean structure, and
  the persisted store `DB` is a record of lists of rows, in insertion order
  (matching SQLAlchemy autoincrement/append semantics; `query.filter_by(...)
  .first()` becomes `List.find?`).
* `datetime` values are modelled as natural numbers (seconds); `timedelta
  (hours=1)` is `3600`; `datetime.utcnow()` becomes an explicit `now`
  parameter of the operations that read the clock.
* Freshly generated values that the code obtains from the environment
  (autoincrement ids, `secrets.token_urlsafe(16)` tokens) are passed as
  explicit parameters to the operations that create them.
* Each Flask route handler becomes a function from the current principal /
  request data and the store to a response and the updated store.  A route
  body runs inside `db.session` and ends in a single `commit`, so one call
  is one atomic state transition.  Only the state-relevant (POST) behaviour
  is modelled; pure `GET` form rendering changes no state.
* `flash` messages and templates are abstracted into the response
  constructors, which keep exactly the distinctions the handlers make
  (success redirect vs. re-rendered form vs. not-found vs. server error).
-/

namespace ProyectoCursos

/-- List prefix test (pattern first): does `l` start with `pat`?
Used to embed Python substring search. -/
def startsWithL : List Char → List Char → Bool
  | [], _ => true
  | _ :: _, [] => false
  | p :: ps, c :: cs => p == c && startsWithL ps cs

/-- Does `l` contain `pat` as a contiguous substring?  Embeds Python
`pat in s`. -/
def containsL (pat : List Char) : List Char → Bool
  | [] => pat.isEmpty
  | c :: cs => startsWithL pat (c :: cs) || containsL pat cs

/-- Fuel-driven helper for `replaceAllL`: replaces leftmost, non-overlapping
occurrences of `pat` by `rep`, exactly like Python `str.replace`.  One unit
of fuel is spent per consumed list element, so fuel equal to the length of
the input list is always sufficient; structural recursion on the fuel keeps
the definition kernel-reducible. -/
def replaceAllAux (pat rep : List Char) : Nat → List Char → List Char
  | _, [] => []
  | 0, l => l
  | fuel + 1, c :: cs =>
    if startsWithL pat (c :: cs) && !pat.isEmpty then
      rep ++ replaceAllAux pat rep fuel (List.drop (pat.length - 1) cs)
    else
      c :: replaceAllAux pat rep fuel cs

/-- Replace every (leftmost, non-overlapping) occurrence of `pat` in `l` by
`rep`; embeds Python `str.replace` for a non-empty pattern. -/
def replaceAllL (pat rep l : List Char) : List Char := replaceAllAux pat rep l.length l

/-- Python `pat in s` on strings. -/
def contiene (s pat : String) : Bool := containsL pat.data s.data

/-- Python `s.replace(pat, rep)` on strings. -/
def reemplaza (s pat rep : String) : String := ⟨replaceAllL pat.data rep.data s.data⟩

/-- Update the first element of the list satisfying `p` by `f`, leaving the
rest unchanged.  Embeds the SQLAlchemy pattern of mutating the row returned
by `query.filter_by(...).first()` and committing. -/
def updateFirst (p : α → Bool) (f : α → α) : List α → List α
  | [] => []
  | x :: xs => if p x then f x :: xs else x :: updateFirst p f xs

/-- Password hashing (`werkzeug.security.generate_password_hash`), abstracted
as a tagging function: no claim depends on the internals of the hash. -/
def generate_password_hash (password : String) : String := "pbkdf2-sha256$" ++ password

/-- Row of table `usuario` (`app.py:40-51`). -/
structure Usuario where
  id : Nat
  email : String
  password_hash : String
  is_admin : Bool
  reset_token : Option String
  token_expiration : Option Nat
deriving DecidableEq

/-- Row of table `categoria` (`app.py:59-62`). -/
structure Categoria where
  id : Nat
  nombre : String
deriving DecidableEq

/-- Row of table `curso` (`app.py:64-69`). -/
structure Curso where
  id : Nat
  titulo : String
  categoria_id : Nat
deriving DecidableEq

/-- Row of table `video` (`app.py:71-75`). -/
structure Video where
  id : Nat
  titulo : String
  url_video : String
  curso_id : Nat
deriving DecidableEq

/-- Row of table `inscripcion` (`app.py:77-82`). -/
structure Inscripcion where
  id : Nat
  usuario_id : Nat
  curso_id : Nat
deriving DecidableEq

/-- The persisted store: the five relations of the application. -/
structure DB where
  usuarios : List Usuario
  categorias : List Categoria
  cursos : List Curso
  videos : List Video
  inscripciones : List Inscripcion
deriving DecidableEq

/-- Abstracted HTTP response of a route handler: a rendered template, a
redirect to a named route, Flask `get_or_404`, or an unhandled storage
error surfaced as a 500. -/
inductive Resp where
  | render (plantilla : String)
  | redirect (ruta : String)
  | notFound
  | serverError
deriving DecidableEq

/-- Outcome of `ver_curso` (`app.py:223-238`): 404 for a missing course,
the authorized classroom view carrying the course and its videos, or the
soft `curso_no_autorizado.html` sales view carrying only the course. -/
inductive VerCursoResult where
  | notFound
  | autorizado (curso : Curso) (videos : List Video)
  | noAutorizado (curso : Curso)
deriving DecidableEq

/-- Route `/curso/<id>` (`ver_curso`, `app.py:223-238`): looks up the course
(404 if absent), then looks for an `Inscripcion` row for (current user,
course); without one it renders the soft not-authorized view, with one it
renders the classroom view whose template shows `curso.videos`. -/
def ver_curso (db : DB) (uid : Nat) (id_curso : Nat) : VerCursoResult :=
  match db.cursos.find? (fun c => c.id == id_curso) with
  | none => .notFound
  | some curso =>
    match db.inscripciones.find? (fun i => i.usuario_id == uid && i.curso_id == id_curso) with
    | none => .noAutorizado curso
    | some _ => .autorizado curso (db.videos.filter (fun v => v.curso_id == id_curso))

/-- Outcome of `inscribirse` (`app.py:157-173`). -/
inductive InscribirseResult where
  | notFound
  | enrolled
  | alreadyEnrolled
deriving DecidableEq

/-- Route `/inscribirse/<id>` (`inscribirse`, `app.py:157-173`): 404 if the
course is absent; otherwise create an `Inscripcion` row for (current user,
course) unless one already exists, in which case nothing changes and the
distinct already-enrolled notice is flashed.  `nid` is the autoincrement id
of the row created on success. -/
def inscribirse (db : DB) (uid : Nat) (id_curso : Nat) (nid : Nat) : InscribirseResult × DB :=
  match db.cursos.find? (fun c => c.id == id_curso) with
  | none => (.notFound, db)
  | some _ =>
    match db.inscripciones.find? (fun i => i.usuario_id == uid && i.curso_id == id_curso) with
    | none =>
      (.enrolled,
        { db with inscripciones := db.inscripciones ++ [⟨nid, uid, id_curso⟩] })
    | some _ => (.alreadyEnrolled, db)

/-- Route `/registro` (`registro`, `app.py:99-117`), POST branch: refuse a
duplicate email, otherwise create the user.  The `Usuario` model gives
`is_admin` the column default `False` and the constructor call passes only
`email` and `password_hash`, so the created row is a non-admin with no reset
token state.  `nid` is the autoincrement id. -/
def registro (db : DB) (email password : String) (nid : Nat) : Resp × DB :=
  match db.usuarios.find? (fun u => u.email == email) with
  | some _ => (.redirect "registro", db)
  | none =>
    (.redirect "login",
      { db with usuarios := db.usuarios ++
          [{ id := nid, email := email,
             password_hash := generate_password_hash password,
             is_admin := false, reset_token := none, token_expiration := none }] })

/-- Route `/admin` (`admin_dashboard`, `app.py:176-189`): non-admins are
flashed a notice and redirected home before any data is queried; admins get
the dashboard view. -/
def admin_dashboard (u : Usuario) (db : DB) : Resp × DB :=
  if !u.is_admin then (.redirect "index", db)
  else (.render "admin_dashboard.html", db)

/-- Route `/admin/crear-categoria` (`crear_categoria`, `app.py:193-218`),
POST branch: guard first, then refuse a duplicate name (form re-rendered,
nothing stored), otherwise append the new category and redirect to the
dashboard.  `nid` is the autoincrement id. -/
def crear_categoria (u : Usuario) (db : DB) (nombre : String) (nid : Nat) : Resp × DB :=
  if !u.is_admin then (.redirect "index", db)
  else
    match db.categorias.find? (fun c => c.nombre == nombre) with
    | some _ => (.render "crear_categoria.html", db)
    | none =>
      (.redirect "admin_dashboard",
        { db with categorias := db.categorias ++ [⟨nid, nombre⟩] })

/-- Route `/admin/crear-curso` (`crear_curso`, `app.py:242-266`), POST
branch: guard first, then unconditionally append the new course. -/
def crear_curso (u : Usuario) (db : DB) (titulo : String) (categoria_id : Nat) (nid : Nat) :
    Resp × DB :=
  if !u.is_admin then (.redirect "index", db)
  else
    (.redirect "admin_dashboard",
      { db with cursos := db.cursos ++ [⟨nid, titulo, categoria_id⟩] })

/-- YouTube URL normalization inlined in `crear_video` (`app.py:284-290`):
if the raw URL contains `watch?v=` that substring is replaced by `embed/`;
otherwise if it contains `youtu.be/` that substring is replaced by
`www.youtube.com/embed/`; otherwise the URL is stored as given. -/
def normaliza_url (url_original : String) : String :=
  if contiene url_original "watch?v=" then
    reemplaza url_original "watch?v=" "embed/"
  else if contiene url_original "youtu.be/" then
    reemplaza url_original "youtu.be/" "www.youtube.com/embed/"
  else url_original

/-- Route `/admin/crear-video` (`crear_video`, `app.py:270-302`), POST
branch: guard first, then store the video with the normalized URL. -/
def crear_video (u : Usuario) (db : DB) (titulo url_original : String) (curso_id : Nat)
    (nid : Nat) : Resp × DB :=
  if !u.is_admin then (.redirect "index", db)
  else
    (.redirect "admin_dashboard",
      { db with videos := db.videos ++ [⟨nid, titulo, normaliza_url url_original, curso_id⟩] })

/-- Route `/admin/borrar-curso/<id>` (`borrar_curso`, `app.py:307-319`):
guard, 404 for a missing course, then `db.session.delete(curso)` and
commit.  The `Curso` relationships `videos` and `inscritos` configure no
delete cascade, so on deleting the parent SQLAlchemy applies its default
"nullify" rule to each dependent row; `Video.curso_id` and
`Inscripcion.curso_id` are declared `nullable=False`, so when a dependent
exists the emitted UPDATE violates the NOT NULL constraint and the commit
raises `IntegrityError` (an unhandled 500, nothing persisted).  Only a
course without dependents is actually removed. -/
def borrar_curso (u : Usuario) (db : DB) (id : Nat) : Resp × DB :=
  if !u.is_admin then (.redirect "index", db)
  else
    match db.cursos.find? (fun c => c.id == id) with
    | none => (.notFound, db)
    | some _ =>
      if db.videos.any (fun v => v.curso_id == id) ||
          db.inscripciones.any (fun i => i.curso_id == id) then
        (.serverError, db)
      else
        (.redirect "admin_dashboard",
          { db with cursos := db.cursos.filter (fun c => !(c.id == id)) })

/-- Route `/admin/borrar-categoria/<id>` (`borrar_categoria`,
`app.py:321-330`): guard, 404, then `db.session.delete(cat)`.  As in
`borrar_curso`, the `cursos` relationship has no delete cascade and
`Curso.categoria_id` is `nullable=False`, so the commit raises
`IntegrityError` whenever a course references the category. -/
def borrar_categoria (u : Usuario) (db : DB) (id : Nat) : Resp × DB :=
  if !u.is_admin then (.redirect "index", db)
  else
    match db.categorias.find? (fun c => c.id == id) with
    | none => (.notFound, db)
    | some _ =>
      if db.cursos.any (fun c => c.categoria_id == id) then
        (.serverError, db)
      else
        (.redirect "admin_dashboard",
          { db with categorias := db.categorias.filter (fun c => !(c.id == id)) })

/-- Route `/admin/borrar-video/<id>` (`borrar_video`, `app.py:332-341`):
guard, 404, then delete the video (it has no dependents). -/
def borrar_video (u : Usuario) (db : DB) (id : Nat) : Resp × DB :=
  if !u.is_admin then (.redirect "index", db)
  else
    match db.videos.find? (fun v => v.id == id) with
    | none => (.notFound, db)
    | some _ =>
      (.redirect "admin_dashboard",
        { db with videos := db.videos.filter (fun v => !(v.id == id)) })

/-- Route `/admin/editar-curso/<id>` (`editar_curso`, `app.py:345-363`),
POST branch: guard, 404, then overwrite the course title and category. -/
def editar_curso (u : Usuario) (db : DB) (id : Nat) (titulo : String) (categoria_id : Nat) :
    Resp × DB :=
  if !u.is_admin then (.redirect "index", db)
  else
    match db.cursos.find? (fun c => c.id == id) with
    | none => (.notFound, db)
    | some _ =>
      let cursosNuevos := updateFirst (fun c => c.id == id)
        (fun c => { c with titulo := titulo, categoria_id := categoria_id }) db.cursos
      (.redirect "admin_dashboard", { db with cursos := cursosNuevos })

/-- Token issuance applied to the found user by `olvide_password`
(`app.py:378-379`): store the generated token and its absolute
expiration. -/
def ponToken (token : String) (exp : Nat) (u : Usuario) : Usuario :=
  { u with reset_token := some token, token_expiration := some exp }

/-- Credential rotation applied to the found user by `reset_password`
(`app.py:418-422`): store the new password hash and clear both token
fields, all in the same commit. -/
def limpiaToken (password : String) (u : Usuario) : Usuario :=
  { u with password_hash := generate_password_hash password,
           reset_token := none, token_expiration := none }

/-- Outcome of `olvide_password` (`app.py:368-399`): on a registered email
the success notice is flashed and the browser is redirected to the login
page; on an unknown email the distinct notice `Ese correo no está
registrado.` is flashed and the form is re-rendered. -/
inductive OlvideResult where
  | ackEnviado
  | noRegistrado
deriving DecidableEq

/-- Route `/olvide-password` (`olvide_password`, `app.py:368-399`), POST
branch: look up the user by email; if found, store the freshly generated
`token` with expiration `now + 1h` on that row and commit (the simulated
email is a side channel); if not found, nothing changes and the
code — deliberately, per its own comment — discloses that the email is not
registered. -/
def olvide_password (db : DB) (email : String) (token : String) (now : Nat) :
    OlvideResult × DB :=
  match db.usuarios.find? (fun u => u.email == email) with
  | none => (.noRegistrado, db)
  | some _ =>
    (.ackEnviado,
      { db with usuarios := updateFirst (fun u => u.email == email) (ponToken token (now + 3600)) db.usuarios })

/-- Outcome of the POST branch of `reset_password` (`app.py:404-428`). -/
inductive ResetResult where
  | invalidOrExpired
  | reset
deriving DecidableEq

/-- Expiration test of `reset_password` (`app.py:410`): the code compares
`usuario.token_expiration < datetime.utcnow()` with a strict less-than.  A
user found by a (string) token always has the expiration set, because the
two fields are only ever written together; the unreachable `none` case is
mapped to "expired". -/
def expiracion_vencida : Option Nat → Nat → Bool
  | some e, now => decide (e < now)
  | none, _ => true

/-- Route `/reset-password/<token>` (`reset_password`, `app.py:404-428`),
POST branch: look up the user holding the token; fail with the
invalid-or-expired notice if there is none or the stored expiration is
strictly before `now`; otherwise, in one commit, store the new password
hash and clear both token fields. -/
def reset_password (db : DB) (token : String) (password : String) (now : Nat) :
    ResetResult × DB :=
  match db.usuarios.find? (fun u => u.reset_token == some token) with
  | none => (.invalidOrExpired, db)
  | some usuario =>
    if expiracion_vencida usuario.token_expiration now then (.invalidOrExpired, db)
    else
      (.reset,
        { db with usuarios := updateFirst (fun u => u.reset_token == some token) (limpiaToken password) db.usuarios })

/-- CLI command `init-data` (`init_data`, `app.py:439-475`): the privileged
bootstrap seeds three categories, three courses, three videos, and — the
only place in the whole program that ever does so — a user created with
`is_admin=True`.  Ids reflect autoincrement order on the empty store. -/
def init_data : DB :=
  { usuarios :=
      [{ id := 1, email := "admin@cursos.com",
         password_hash := generate_password_hash "admin123",
         is_admin := true, reset_token := none, token_expiration := none }],
    categorias :=
      [⟨1, "SQL y Bases de Datos"⟩, ⟨2, "Python desde Cero"⟩, ⟨3, "Desarrollo Web"⟩],
    cursos :=
      [⟨1, "SQL para Principiantes", 1⟩, ⟨2, "Consultas Avanzadas MySQL", 1⟩,
       ⟨3, "Introducción a Python", 2⟩],
    videos :=
      [⟨1, "Instalación de MySQL", "https://www.youtube.com/embed/WuBcTJnIuzo", 1⟩,
       ⟨2, "Select y From", "https://www.youtube.com/embed/yPu6qV5byu4", 1⟩,
       ⟨3, "Hola Mundo en Python", "https://www.youtube.com/embed/DcojabcVqTE", 2⟩],
    inscripciones := [] }

/-- One inbound HTTP request, carrying the id of the authenticated
principal where the route requires login (`uid`), the form data, and the
environment-supplied fresh values (autoincrement ids `nid`, generated reset
tokens, the clock `now`).  These are exactly the request-path operations of
the application; the `init-data` bootstrap is a CLI command, not a
request. -/
inductive Request where
  | index (uid : Nat)
  | registro (email password : String) (nid : Nat)
  | login (email password : String)
  | logout (uid : Nat)
  | ver_categoria (uid id_categoria : Nat)
  | inscribirse (uid id_curso nid : Nat)
  | admin_dashboard (uid : Nat)
  | crear_categoria (uid : Nat) (nombre : String) (nid : Nat)
  | ver_curso (uid id_curso : Nat)
  | crear_curso (uid : Nat) (titulo : String) (categoria_id nid : Nat)
  | crear_video (uid : Nat) (titulo url : String) (curso_id nid : Nat)
  | borrar_curso (uid id : Nat)
  | borrar_categoria (uid id : Nat)
  | borrar_video (uid id : Nat)
  | editar_curso (uid id : Nat) (titulo : String) (categoria_id : Nat)
  | olvide_password (email token : String) (now : Nat)
  | reset_password (token password : String) (now : Nat)

/-- Resolve the authenticated principal (`flask_login` / `load_user`,
`app.py:54-56`): an unresolvable id means no authenticated session, and a
`@login_required` route then redirects to the login page without touching
the store. -/
def conUsuario (db : DB) (uid : Nat) (f : Usuario → DB) : DB :=
  match db.usuarios.find? (fun u => u.id == uid) with
  | none => db
  | some u => f u

/-- Effect of one request on the persisted store.  Read-only routes
(`index`, `login`, `logout`, `ver_categoria`, `ver_curso`, and every GET
form render) leave the store unchanged. -/
def step (db : DB) : Request → DB
  | .index _ => db
  | .registro email password nid => (registro db email password nid).2
  | .login _ _ => db
  | .logout _ => db
  | .ver_categoria _ _ => db
  | .inscribirse uid id_curso nid => (inscribirse db uid id_curso nid).2
  | .admin_dashboard uid => conUsuario db uid (fun u => (admin_dashboard u db).2)
  | .crear_categoria uid nombre nid =>
      conUsuario db uid (fun u => (crear_categoria u db nombre nid).2)
  | .ver_curso _ _ => db
  | .crear_curso uid titulo categoria_id nid =>
      conUsuario db uid (fun u => (crear_curso u db titulo categoria_id nid).2)
  | .crear_video uid titulo url curso_id nid =>
      conUsuario db uid (fun u => (crear_video u db titulo url curso_id nid).2)
  | .borrar_curso uid id => conUsuario db uid (fun u => (borrar_curso u db id).2)
  | .borrar_categoria uid id => conUsuario db uid (fun u => (borrar_categoria u db id).2)
  | .borrar_video uid id => conUsuario db uid (fun u => (borrar_video u db id).2)
  | .editar_curso uid id titulo categoria_id =>
      conUsuario db uid (fun u => (editar_curso u db id titulo categoria_id).2)
  | .olvide_password email token now => (olvide_password db email token now).2
  | .reset_password token password now => (reset_password db token password now).2

/-- Run a sequence of requests against a store. -/
def run (db : DB) (reqs : List Request) : DB := reqs.foldl step db

/-! Concrete stores used to witness the theorems on explicit inputs. -/

/-- A regular (non-admin) user. -/
def uW : Usuario :=
  { id := 7, email := "ana@x.com", password_hash := generate_password_hash "pw1",
    is_admin := false, reset_token := none, token_expiration := none }

/-- A store where user 7 is enrolled in course 1. -/
def dbW : DB :=
  { usuarios := [uW], categorias := [⟨1, "Math"⟩], cursos := [⟨1, "Algebra", 1⟩],
    videos := [⟨1, "Intro", "https://www.youtube.com/embed/ABC123", 1⟩],
    inscripciones := [⟨1, 7, 1⟩] }

/-- The same store before any enrollment. -/
def dbW0 : DB := { dbW with inscripciones := [] }

/-- A user holding the live reset token `tok` expiring at time 9999. -/
def uT : Usuario :=
  { id := 7, email := "ana@x.com", password_hash := generate_password_hash "pw1",
    is_admin := false, reset_token := some "tok", token_expiration := some 9999 }

/-- A store whose only user holds the live reset token `tok`. -/
def dbT : DB := { usuarios := [uT], categorias := [], cursos := [], videos := [],
                  inscripciones := [] }

/-- The same store after `tok` has been redeemed with new password `pw2`. -/
def dbT' : DB :=
  { dbT with usuarios :=
      [{ uT with password_hash := generate_password_hash "pw2",
                 reset_token := none, token_expiration := none }] }

/-- The empty store. -/
def dbEmpty : DB := ⟨[], [], [], [], []⟩

/-- The bootstrap admin principal used to exercise the delete routes. -/
def uAdm : Usuario :=
  { id := 2, email := "admin@cursos.com", password_hash := generate_password_hash "admin123",
    is_admin := true, reset_token := none, token_expiration := none }

/-- Store `dbW` with the admin present: course 1 has a dependent video and
a dependent enrollment. -/
def dbA : DB := { dbW with usuarios := [uW, uAdm] }

/-! Helper lemmas about `updateFirst`. -/

theorem mem_updateFirst {p : α → Bool} {f : α → α} {l : List α} {u : α}
    (h : u ∈ updateFirst p f l) : u ∈ l ∨ ∃ v ∈ l, u = f v := by
  induction l with
  | nil => simp [updateFirst] at h
  | cons x xs ih =>
    unfold updateFirst at h
    by_cases hx : p x
    · rw [if_pos hx] at h
      rcases List.mem_cons.mp h with h | h
      · exact Or.inr ⟨x, List.mem_cons_self x xs, h⟩
      · exact Or.inl (List.mem_cons_of_mem x h)
    · rw [if_neg hx] at h
      rcases List.mem_cons.mp h with h | h
      · exact Or.inl (h ▸ List.mem_cons_self x xs)
      · rcases ih h with h | ⟨v, hv, hvf⟩
        · exact Or.inl (List.mem_cons_of_mem x h)
        · exact Or.inr ⟨v, List.mem_cons_of_mem x hv, hvf⟩

theorem updateFirst_of_find? {p : α → Bool} {f : α → α} {l : List α} {v : α}
    (h : l.find? p = some v) : f v ∈ updateFirst p f l := by
  induction l with
  | nil => simp at h
  | cons x xs ih =>
    unfold updateFirst
    by_cases hx : p x
    · rw [List.find?_cons_of_pos _ hx] at h
      rw [if_pos hx]
      exact Option.some_injective _ h ▸ List.mem_cons_self _ _
    · rw [List.find?_cons_of_neg _ hx] at h
      rw [if_neg hx]
      exact List.mem_cons_of_mem x (ih h)

theorem updateFirst_updateFirst {p : α → Bool} {f g : α → α} (l : List α)
    (hg : ∀ x, p (g x) = p x) :
    updateFirst p f (updateFirst p g l) = updateFirst p (fun x => f (g x)) l := by
  induction l with
  | nil => rfl
  | cons x xs ih =>
    simp only [updateFirst]
    by_cases hx : p x
    · rw [if_pos hx]
      simp only [updateFirst]
      rw [if_pos ((hg x).trans hx), if_pos hx]
    · rw [if_neg hx]
      simp only [updateFirst]
      rw [if_neg hx, if_neg hx, ih]

theorem updateFirst_no_sat {p : α → Bool} {f : α → α} {l : List α}
    (hcount : l.countP p ≤ 1) (hf : ∀ v, p (f v) = false) :
    ∀ u ∈ updateFirst p f l, p u = false := by
  induction l with
  | nil => intro u hu; simp [updateFirst] at hu
  | cons x xs ih =>
    intro u hu
    simp only [updateFirst] at hu
    by_cases hx : p x
    · rw [if_pos hx] at hu
      rcases List.mem_cons.mp hu with h | h
      · exact h ▸ hf x
      · have hzero : xs.countP p = 0 := by
          rw [List.countP_cons_of_pos _ _ hx] at hcount
          omega
        exact Bool.eq_false_iff.mpr ((List.countP_eq_zero.mp hzero) u h)
    · rw [if_neg hx] at hu
      rcases List.mem_cons.mp hu with h | h
      · exact h ▸ Bool.eq_false_iff.mpr hx
      · have hle : xs.countP p ≤ 1 := by
          rw [List.countP_cons] at hcount
          omega
        exact ih hle u h

/-! Per-route preservation of the `usuario` table: no request-path route
other than `registro`, `olvide_password` and `reset_password` touches it. -/

theorem inscribirse_usuarios (db : DB) (uid id_curso nid : Nat) :
    ((inscribirse db uid id_curso nid).2).usuarios = db.usuarios := by
  unfold inscribirse
  repeat' split
  all_goals rfl

theorem admin_dashboard_usuarios (u : Usuario) (db : DB) :
    ((admin_dashboard u db).2).usuarios = db.usuarios := by
  unfold admin_dashboard
  split <;> rfl

theorem crear_categoria_usuarios (u : Usuario) (db : DB) (nombre : String) (nid : Nat) :
    ((crear_categoria u db nombre nid).2).usuarios = db.usuarios := by
  unfold crear_categoria
  repeat' split
  all_goals rfl

theorem crear_curso_usuarios (u : Usuario) (db : DB) (titulo : String) (categoria_id nid : Nat) :
    ((crear_curso u db titulo categoria_id nid).2).usuarios = db.usuarios := by
  unfold crear_curso
  split <;> rfl

theorem crear_video_usuarios (u : Usuario) (db : DB) (titulo url : String) (curso_id nid : Nat) :
    ((crear_video u db titulo url curso_id nid).2).usuarios = db.usuarios := by
  unfold crear_video
  split <;> rfl

theorem borrar_curso_usuarios (u : Usuario) (db : DB) (id : Nat) :
    ((borrar_curso u db id).2).usuarios = db.usuarios := by
  unfold borrar_curso
  repeat' split
  all_goals rfl

theorem borrar_categoria_usuarios (u : Usuario) (db : DB) (id : Nat) :
    ((borrar_categoria u db id).2).usuarios = db.usuarios := by
  unfold borrar_categoria
  repeat' split
  all_goals rfl

theorem borrar_video_usuarios (u : Usuario) (db : DB) (id : Nat) :
    ((borrar_video u db id).2).usuarios = db.usuarios := by
  unfold borrar_video
  repeat' split
  all_goals rfl

theorem editar_curso_usuarios (u : Usuario) (db : DB) (id : Nat) (titulo : String)
    (categoria_id : Nat) :
    ((editar_curso u db id titulo categoria_id).2).usuarios = db.usuarios := by
  unfold editar_curso
  repeat' split
  all_goals rfl

theorem conUsuario_usuarios (db : DB) (uid : Nat) (f : Usuario → DB)
    (hf : ∀ u, (f u).usuarios = db.usuarios) : (conUsuario db uid f).usuarios = db.usuarios := by
  unfold conUsuario
  split
  · rfl
  · exact hf _

/-- Unfolding of `olvide_password` when the email lookup succeeds. -/
theorem olvide_password_eq_some (db : DB) (email token : String) (now : Nat) (v : Usuario)
    (hv : db.usuarios.find? (fun u => u.email == email) = some v) :
    olvide_password db email token now =
      (OlvideResult.ackEnviado,
        { db with usuarios := updateFirst (fun u => u.email == email) (ponToken token (now + 3600)) db.usuarios }) := by
  simp only [olvide_password, hv]

/-- C1: for every user and existing course, `ver_curso` returns the
authorized view carrying the course videos if and only if an `Inscripcion`
row for the (user, course) pair exists; when no such row exists it returns
the soft not-authorized view rather than an error. -/
theorem ver_curso_autorizado_iff (db : DB) (uid id_curso : Nat)
    (hc : ∃ c ∈ db.cursos, c.id = id_curso) :
    ((∃ c vs, ver_curso db uid id_curso = VerCursoResult.autorizado c vs) ↔
      ∃ i ∈ db.inscripciones, i.usuario_id = uid ∧ i.curso_id = id_curso) ∧
    ((∀ i ∈ db.inscripciones, ¬(i.usuario_id = uid ∧ i.curso_id = id_curso)) →
      ∃ c, ver_curso db uid id_curso = VerCursoResult.noAutorizado c) := by
  obtain ⟨c0, hc0, hcid⟩ := hc
  have hfind : (db.cursos.find? (fun c => c.id == id_curso)).isSome := by
    rw [List.find?_isSome]
    exact ⟨c0, hc0, by simp [hcid]⟩
  obtain ⟨c1, hc1⟩ := Option.isSome_iff_exists.mp hfind
  constructor
  · constructor
    · rintro ⟨c, vs, hv⟩
      cases hins : db.inscripciones.find?
          (fun i => i.usuario_id == uid && i.curso_id == id_curso) with
      | none =>
        simp only [ver_curso, hc1, hins] at hv
        cases hv
      | some i =>
        have hmem := List.mem_of_find?_eq_some hins
        have hp := List.find?_some hins
        simp only [Bool.and_eq_true, beq_iff_eq] at hp
        exact ⟨i, hmem, hp.1, hp.2⟩
    · rintro ⟨i, hi, h1, h2⟩
      have hs : (db.inscripciones.find?
          (fun i => i.usuario_id == uid && i.curso_id == id_curso)).isSome := by
        rw [List.find?_isSome]
        exact ⟨i, hi, by simp [h1, h2]⟩
      obtain ⟨j, hj⟩ := Option.isSome_iff_exists.mp hs
      refine ⟨c1, db.videos.filter (fun v => v.curso_id == id_curso), ?_⟩
      simp only [ver_curso, hc1, hj]
  · intro hno
    have hn : db.inscripciones.find?
        (fun i => i.usuario_id == uid && i.curso_id == id_curso) = none := by
      rw [List.find?_eq_none]
      intro x hx
      simp only [Bool.and_eq_true, beq_iff_eq, not_and]
      exact fun h1 h2 => (hno x hx) ⟨h1, h2⟩
    refine ⟨c1, ?_⟩
    simp only [ver_curso, hc1, hn]

/-- Witness for C1 at a concrete input: course 1 exists in `dbW` and user 7
is enrolled, so the authorized view is returned. -/
theorem ver_curso_autorizado_iff_witness :
    ∃ c vs, ver_curso dbW 7 1 = VerCursoResult.autorizado c vs :=
  (ver_curso_autorizado_iff dbW 7 1 ⟨⟨1, "Algebra", 1⟩, by decide, rfl⟩).1.mpr
    ⟨⟨1, 7, 1⟩, by decide, rfl, rfl⟩

/-- C2: for a user not yet enrolled in an existing course, calling
`inscribirse` twice yields `enrolled` then the distinct `alreadyEnrolled`,
the second call changes no state, and exactly one `Inscripcion` row for the
pair is left in the store. -/
theorem inscribirse_twice (db : DB) (uid id_curso nid1 nid2 : Nat)
    (hc : ∃ c ∈ db.cursos, c.id = id_curso)
    (h0 : ∀ i ∈ db.inscripciones, (i.usuario_id == uid && i.curso_id == id_curso) = false) :
    (inscribirse db uid id_curso nid1).1 = InscribirseResult.enrolled ∧
    (inscribirse (inscribirse db uid id_curso nid1).2 uid id_curso nid2).1 =
      InscribirseResult.alreadyEnrolled ∧
    (inscribirse (inscribirse db uid id_curso nid1).2 uid id_curso nid2).2 =
      (inscribirse db uid id_curso nid1).2 ∧
    ((inscribirse db uid id_curso nid1).2).inscripciones.countP
      (fun i => i.usuario_id == uid && i.curso_id == id_curso) = 1 := by
  obtain ⟨c0, hc0, hcid⟩ := hc
  have hfind : (db.cursos.find? (fun c => c.id == id_curso)).isSome := by
    rw [List.find?_isSome]
    exact ⟨c0, hc0, by simp [hcid]⟩
  obtain ⟨c1, hc1⟩ := Option.isSome_iff_exists.mp hfind
  have hnone : db.inscripciones.find?
      (fun i => i.usuario_id == uid && i.curso_id == id_curso) = none := by
    rw [List.find?_eq_none]
    intro x hx
    simp [h0 x hx]
  have hdb1 : (inscribirse db uid id_curso nid1).2 =
      { db with inscripciones := db.inscripciones ++ [⟨nid1, uid, id_curso⟩] } := by
    simp only [inscribirse, hc1, hnone]
  have hres1 : (inscribirse db uid id_curso nid1).1 = InscribirseResult.enrolled := by
    simp only [inscribirse, hc1, hnone]
  have hc1b : ({ db with inscripciones := db.inscripciones ++ [⟨nid1, uid, id_curso⟩] } :
      DB).cursos.find? (fun c => c.id == id_curso) = some c1 := hc1
  have hs : (({ db with inscripciones := db.inscripciones ++ [⟨nid1, uid, id_curso⟩] } :
      DB).inscripciones.find?
        (fun i => i.usuario_id == uid && i.curso_id == id_curso)).isSome := by
    rw [List.find?_isSome]
    exact ⟨⟨nid1, uid, id_curso⟩, by simp, by simp⟩
  obtain ⟨j, hj⟩ := Option.isSome_iff_exists.mp hs
  refine ⟨hres1, ?_, ?_, ?_⟩
  · rw [hdb1]
    simp only [inscribirse, hc1b, hj]
  · rw [hdb1]
    simp only [inscribirse, hc1b, hj]
  · rw [hdb1]
    have hz : db.inscripciones.countP
        (fun i => i.usuario_id == uid && i.curso_id == id_curso) = 0 := by
      rw [List.countP_eq_zero]
      intro a ha
      simp [h0 a ha]
    simp [List.countP_append, hz, List.countP_cons]

/-- Witness for C2 at a concrete input: user 7 and course 1 in the
enrollment-free store `dbW0`. -/
theorem inscribirse_twice_witness :
    (inscribirse dbW0 7 1 1).1 = InscribirseResult.enrolled ∧
    (inscribirse (inscribirse dbW0 7 1 1).2 7 1 2).1 = InscribirseResult.alreadyEnrolled ∧
    (inscribirse (inscribirse dbW0 7 1 1).2 7 1 2).2 = (inscribirse dbW0 7 1 1).2 ∧
    ((inscribirse dbW0 7 1 1).2).inscripciones.countP
      (fun i => i.usuario_id == 7 && i.curso_id == 1) = 1 :=
  inscribirse_twice dbW0 7 1 1 2 ⟨⟨1, "Algebra", 1⟩, by decide, rfl⟩ (by decide)

/-- C3: every admin route checks `current_user.is_admin` before touching any
data; a non-admin principal gets a redirect to the home page and the store
is left completely unchanged, for all eight `Admin.*` operations. -/
theorem admin_guard_no_mutation (u : Usuario) (h : u.is_admin = false) :
    ∀ (db : DB) (nombre titulo url : String) (id categoria_id curso_id nid : Nat),
      admin_dashboard u db = (Resp.redirect "index", db) ∧
      crear_categoria u db nombre nid = (Resp.redirect "index", db) ∧
      crear_curso u db titulo categoria_id nid = (Resp.redirect "index", db) ∧
      crear_video u db titulo url curso_id nid = (Resp.redirect "index", db) ∧
      borrar_curso u db id = (Resp.redirect "index", db) ∧
      borrar_categoria u db id = (Resp.redirect "index", db) ∧
      borrar_video u db id = (Resp.redirect "index", db) ∧
      editar_curso u db id titulo categoria_id = (Resp.redirect "index", db) := by
  intro db nombre titulo url id categoria_id curso_id nid
  refine ⟨?_, ?_, ?_, ?_, ?_, ?_, ?_, ?_⟩ <;>
    simp [admin_dashboard, crear_categoria, crear_curso, crear_video, borrar_curso,
      borrar_categoria, borrar_video, editar_curso, h]

/-- Witness for C3 at a concrete input: the non-admin user `uW` is turned
away from `borrar_curso` (and the other admin routes) with `dbW`
unchanged. -/
theorem admin_guard_no_mutation_witness :
    uW.is_admin = false ∧
    borrar_curso uW dbW 1 = (Resp.redirect "index", dbW) ∧
    crear_categoria uW dbW "Math" 2 = (Resp.redirect "index", dbW) :=
  ⟨rfl, (admin_guard_no_mutation uW rfl dbW "Math" "T" "u" 1 1 1 2).2.2.2.2.1,
    (admin_guard_no_mutation uW rfl dbW "Math" "T" "u" 1 1 1 2).2.1⟩

/-- One request preserves admin provenance: any admin row after the step
corresponds to an admin row with the same id and email before it (no
request-path operation ever sets `is_admin` to true). -/
theorem step_admin_preserved (r : Request) (db : DB) :
    ∀ u' ∈ (step db r).usuarios, u'.is_admin = true →
      ∃ u ∈ db.usuarios, u.id = u'.id ∧ u.email = u'.email ∧ u.is_admin = true := by
  cases r with
  | index uid => exact fun u' h ha => ⟨u', h, rfl, rfl, ha⟩
  | login email password => exact fun u' h ha => ⟨u', h, rfl, rfl, ha⟩
  | logout uid => exact fun u' h ha => ⟨u', h, rfl, rfl, ha⟩
  | ver_categoria uid id_categoria => exact fun u' h ha => ⟨u', h, rfl, rfl, ha⟩
  | ver_curso uid id_curso => exact fun u' h ha => ⟨u', h, rfl, rfl, ha⟩
  | registro email password nid =>
    intro u' h ha
    simp only [step, registro] at h
    cases hf : db.usuarios.find? (fun u => u.email == email) with
    | some v =>
      rw [hf] at h
      exact ⟨u', h, rfl, rfl, ha⟩
    | none =>
      rw [hf] at h
      rcases List.mem_append.mp h with h | h
      · exact ⟨u', h, rfl, rfl, ha⟩
      · simp only [List.mem_singleton] at h
        rw [h] at ha
        cases ha
  | inscribirse uid id_curso nid =>
    intro u' h ha
    rw [show (step db (.inscribirse uid id_curso nid)).usuarios = db.usuarios from
      inscribirse_usuarios db uid id_curso nid] at h
    exact ⟨u', h, rfl, rfl, ha⟩
  | admin_dashboard uid =>
    intro u' h ha
    rw [show (step db (.admin_dashboard uid)).usuarios = db.usuarios from
      conUsuario_usuarios db uid _ (fun u => admin_dashboard_usuarios u db)] at h
    exact ⟨u', h, rfl, rfl, ha⟩
  | crear_categoria uid nombre nid =>
    intro u' h ha
    rw [show (step db (.crear_categoria uid nombre nid)).usuarios = db.usuarios from
      conUsuario_usuarios db uid _ (fun u => crear_categoria_usuarios u db nombre nid)] at h
    exact ⟨u', h, rfl, rfl, ha⟩
  | crear_curso uid titulo categoria_id nid =>
    intro u' h ha
    rw [show (step db (.crear_curso uid titulo categoria_id nid)).usuarios = db.usuarios from
      conUsuario_usuarios db uid _ (fun u => crear_curso_usuarios u db titulo categoria_id nid)]
      at h
    exact ⟨u', h, rfl, rfl, ha⟩
  | crear_video uid titulo url curso_id nid =>
    intro u' h ha
    rw [show (step db (.crear_video uid titulo url curso_id nid)).usuarios = db.usuarios from
      conUsuario_usuarios db uid _
        (fun u => crear_video_usuarios u db titulo url curso_id nid)] at h
    exact ⟨u', h, rfl, rfl, ha⟩
  | borrar_curso uid id =>
    intro u' h ha
    rw [show (step db (.borrar_curso uid id)).usuarios = db.usuarios from
      conUsuario_usuarios db uid _ (fun u => borrar_curso_usuarios u db id)] at h
    exact ⟨u', h, rfl, rfl, ha⟩
  | borrar_categoria uid id =>
    intro u' h ha
    rw [show (step db (.borrar_categoria uid id)).usuarios = db.usuarios from
      conUsuario_usuarios db uid _ (fun u => borrar_categoria_usuarios u db id)] at h
    exact ⟨u', h, rfl, rfl, ha⟩
  | borrar_video uid id =>
    intro u' h ha
    rw [show (step db (.borrar_video uid id)).usuarios = db.usuarios from
      conUsuario_usuarios db uid _ (fun u => borrar_video_usuarios u db id)] at h
    exact ⟨u', h, rfl, rfl, ha⟩
  | editar_curso uid id titulo categoria_id =>
    intro u' h ha
    rw [show (step db (.editar_curso uid id titulo categoria_id)).usuarios = db.usuarios from
      conUsuario_usuarios db uid _
        (fun u => editar_curso_usuarios u db id titulo categoria_id)] at h
    exact ⟨u', h, rfl, rfl, ha⟩
  | olvide_password email token now =>
    intro u' h ha
    simp only [step, olvide_password] at h
    cases hf : db.usuarios.find? (fun u => u.email == email) with
    | none =>
      rw [hf] at h
      exact ⟨u', h, rfl, rfl, ha⟩
    | some v =>
      rw [hf] at h
      rcases mem_updateFirst h with h | ⟨w, hw, hwf⟩
      · exact ⟨u', h, rfl, rfl, ha⟩
      · subst hwf
        exact ⟨w, hw, rfl, rfl, ha⟩
  | reset_password token password now =>
    intro u' h ha
    simp only [step, reset_password] at h
    cases hf : db.usuarios.find? (fun u => u.reset_token == some token) with
    | none =>
      rw [hf] at h
      exact ⟨u', h, rfl, rfl, ha⟩
    | some v =>
      simp only [hf] at h
      by_cases he : expiracion_vencida v.token_expiration now = true
      · rw [if_pos he] at h
        exact ⟨u', h, rfl, rfl, ha⟩
      · rw [if_neg he] at h
        rcases mem_updateFirst h with h | ⟨w, hw, hwf⟩
        · exact ⟨u', h, rfl, rfl, ha⟩
        · subst hwf
          exact ⟨w, hw, rfl, rfl, ha⟩

/-- Admin provenance propagated along any request sequence. -/
theorem run_admin_preserved (reqs : List Request) : ∀ db : DB,
    (∀ u ∈ db.usuarios, u.is_admin = true → u.id = 1 ∧ u.email = "admin@cursos.com") →
    ∀ u' ∈ (run db reqs).usuarios, u'.is_admin = true →
      u'.id = 1 ∧ u'.email = "admin@cursos.com" := by
  induction reqs with
  | nil => exact fun db h => h
  | cons r rs ih =>
    intro db h
    refine ih (step db r) ?_
    intro u' hu ha
    obtain ⟨u, hu2, hid, hem, hadm⟩ := step_admin_preserved r db u' hu ha
    obtain ⟨h1, h2⟩ := h u hu2 hadm
    exact ⟨hid ▸ h1, hem ▸ h2⟩

/-- C4: self-service registration only ever creates non-admin users, no
request-path operation ever sets `is_admin` to true, and in every state
reachable from the `init-data` bootstrap the only admin row is the one the
bootstrap created (id 1, `admin@cursos.com`). -/
theorem admin_solo_de_bootstrap :
    (∀ (db : DB) (email password : String) (nid : Nat) (u' : Usuario),
        u' ∈ ((registro db email password nid).2).usuarios → u'.is_admin = true →
        u' ∈ db.usuarios) ∧
    (∀ (r : Request) (db : DB) (u' : Usuario),
        u' ∈ (step db r).usuarios → u'.is_admin = true →
        ∃ u ∈ db.usuarios, u.id = u'.id ∧ u.email = u'.email ∧ u.is_admin = true) ∧
    (∀ (reqs : List Request) (u' : Usuario),
        u' ∈ (run init_data reqs).usuarios → u'.is_admin = true →
        u'.id = 1 ∧ u'.email = "admin@cursos.com") := by
  refine ⟨?_, fun r db u' h ha => step_admin_preserved r db u' h ha, ?_⟩
  · intro db email password nid u' h ha
    simp only [registro] at h
    cases hf : db.usuarios.find? (fun u => u.email == email) with
    | some v =>
      rw [hf] at h
      exact h
    | none =>
      rw [hf] at h
      rcases List.mem_append.mp h with h | h
      · exact h
      · simp only [List.mem_singleton] at h
        rw [h] at ha
        cases ha
  · intro reqs u' h ha
    exact run_admin_preserved reqs init_data (by decide) u' h ha

/-- Witness for C4 at a concrete input: after a registration request on the
bootstrapped store, the seeded admin row is still the (only) admin. -/
theorem admin_solo_de_bootstrap_witness :
    ({ id := 1, email := "admin@cursos.com",
       password_hash := generate_password_hash "admin123",
       is_admin := true, reset_token := none, token_expiration := none } : Usuario).id = 1 ∧
    ({ id := 1, email := "admin@cursos.com",
       password_hash := generate_password_hash "admin123",
       is_admin := true, reset_token := none, token_expiration := none } : Usuario).email =
      "admin@cursos.com" :=
  admin_solo_de_bootstrap.2.2 [Request.registro "ana@x.com" "pw" 2]
    { id := 1, email := "admin@cursos.com",
      password_hash := generate_password_hash "admin123",
      is_admin := true, reset_token := none, token_expiration := none }
    (by decide) rfl

/-- C5: when redemption succeeds, the same commit that stores the new
password hash clears both token fields, no user holds the token any more,
and every subsequent redemption of the same token fails with the
invalid-or-expired outcome, leaving the store unchanged.  The token is held
by at most one user (tokens are fresh random values, and the store only
ever assigns a token to a single user per request). -/
theorem reset_password_un_solo_uso (db : DB) (t password : String) (now : Nat) (db' : DB)
    (hcount : db.usuarios.countP (fun u => u.reset_token == some t) ≤ 1)
    (hsucc : reset_password db t password now = (ResetResult.reset, db')) :
    (∀ u ∈ db'.usuarios, u.reset_token ≠ some t) ∧
    (∃ u ∈ db'.usuarios, u.password_hash = generate_password_hash password ∧
      u.reset_token = none ∧ u.token_expiration = none) ∧
    (∀ (password2 : String) (now2 : Nat),
      reset_password db' t password2 now2 = (ResetResult.invalidOrExpired, db')) := by
  cases hf : db.usuarios.find? (fun u => u.reset_token == some t) with
  | none =>
    simp only [reset_password, hf] at hsucc
    injection hsucc with hres _
    cases hres
  | some v =>
    simp only [reset_password, hf] at hsucc
    by_cases he : expiracion_vencida v.token_expiration now = true
    · rw [if_pos he] at hsucc
      injection hsucc with hres _
      cases hres
    · rw [if_neg he] at hsucc
      injection hsucc with _ hdbeq
      have hdb' : db' =
          { db with usuarios := updateFirst (fun u => u.reset_token == some t) (limpiaToken password) db.usuarios } :=
        hdbeq.symm
      have hno : ∀ u ∈ db'.usuarios, (u.reset_token == some t) = false := by
        rw [hdb']
        exact updateFirst_no_sat hcount (fun w => rfl)
      have hnot : ∀ u ∈ db'.usuarios, u.reset_token ≠ some t := by
        intro u hu
        have := hno u hu
        simpa using this
      have hfind' : db'.usuarios.find? (fun u => u.reset_token == some t) = none := by
        rw [List.find?_eq_none]
        intro x hx
        simp [hno x hx]
      refine ⟨hnot, ?_, ?_⟩
      · refine ⟨limpiaToken password v, ?_, rfl, rfl, rfl⟩
        rw [hdb']
        exact updateFirst_of_find? hf
      · intro password2 now2
        simp only [reset_password, hfind']

/-- Witness for C5 at a concrete input: `tok` is redeemed against `dbT` at
time 100, and redeeming `tok` again later fails, leaving the store as it
was. -/
theorem reset_password_un_solo_uso_witness :
    reset_password dbT' "tok" "pw3" 50 = (ResetResult.invalidOrExpired, dbT') :=
  (reset_password_un_solo_uso dbT "tok" "pw2" 100 dbT' (by decide) (by decide)).2.2 "pw3" 50

/-- C6 counterexample: the claim says a token whose stored expiration
equals the current time already fails redemption, but the code compares
with a strict less-than (`app.py:410`), so at `now = 9999` the token whose
expiration is exactly 9999 is still accepted and the reset succeeds. -/
theorem reset_password_igual_ahora_acepta :
    uT.token_expiration = some 9999 ∧
    (reset_password dbT "tok" "pw2" 9999).1 = ResetResult.reset ∧
    ResetResult.reset ≠ ResetResult.invalidOrExpired := by decide

/-- C6 (amended): redemption fails with the invalid-or-expired outcome if
no user holds the token, or if the stored expiration is strictly before the
current time; an expiration equal to the current time still redeems. -/
theorem reset_password_invalido_o_vencido (db : DB) (t password : String) (now : Nat) :
    ((∀ u ∈ db.usuarios, u.reset_token ≠ some t) →
      reset_password db t password now = (ResetResult.invalidOrExpired, db)) ∧
    (∀ u, db.usuarios.find? (fun x => x.reset_token == some t) = some u →
      ∀ e, u.token_expiration = some e → e < now →
        reset_password db t password now = (ResetResult.invalidOrExpired, db)) := by
  constructor
  · intro hno
    have hfind : db.usuarios.find? (fun u => u.reset_token == some t) = none := by
      rw [List.find?_eq_none]
      intro x hx
      simpa using hno x hx
    simp only [reset_password, hfind]
  · intro u hu e he hlt
    have hv : expiracion_vencida u.token_expiration now = true := by
      rw [he]
      simpa [expiracion_vencida] using hlt
    simp only [reset_password, hu, if_pos hv]

/-- Witness for C6 (amended) at a concrete input: at time 10000 the token
expiring at 9999 is refused. -/
theorem reset_password_invalido_o_vencido_witness :
    reset_password dbT "tok" "pw2" 10000 = (ResetResult.invalidOrExpired, dbT) :=
  (reset_password_invalido_o_vencido dbT "tok" "pw2" 10000).2 uT (by decide) 9999 (by decide)
    (by decide)

/-- C7 counterexample: two stores differing only in whether `ana@x.com` is
registered produce observably different outcomes from the forgot-password
route — the code flashes a distinct "not registered" notice (`app.py:397`),
so the response is not the same success-shaped acknowledgement in both
runs. -/
theorem olvide_password_divulga_existencia :
    (olvide_password dbW "ana@x.com" "tok" 100).1 = OlvideResult.ackEnviado ∧
    (olvide_password dbEmpty "ana@x.com" "tok" 100).1 = OlvideResult.noRegistrado ∧
    OlvideResult.ackEnviado ≠ OlvideResult.noRegistrado := by decide

/-- C7 (amended): the caller-visible outcome of the forgot-password route
reveals exactly whether the email is registered: a registered email gets
the success acknowledgement, an unregistered one gets the distinct
not-registered notice. -/
theorem olvide_password_resultado (db : DB) (email token : String) (now : Nat) :
    (olvide_password db email token now).1 =
      (if db.usuarios.any (fun u => u.email == email) then OlvideResult.ackEnviado
       else OlvideResult.noRegistrado) := by
  cases hf : db.usuarios.find? (fun u => u.email == email) with
  | none =>
    have hany : db.usuarios.any (fun u => u.email == email) = false := by
      rw [List.any_eq_false]
      rw [List.find?_eq_none] at hf
      exact hf
    simp [olvide_password, hf, hany]
  | some v =>
    have hp := List.find?_some hf
    have hany : db.usuarios.any (fun u => u.email == email) = true := by
      rw [List.any_eq_true]
      exact ⟨v, List.mem_of_find?_eq_some hf, hp⟩
    simp [olvide_password, hf, hany]

/-- C10: issuing a second reset token for the same user overwrites the
first one in place (a user has a single pair of token fields), so after the
second request the user holds only the new token, nobody holds the old one,
and redeeming the old token fails with the invalid-or-expired outcome at
any time — even before its original expiration — changing nothing.
Hypotheses: the user exists, the first token is fresh (held by nobody
before the first request), and the second generated token differs from the
first. -/
theorem olvide_password_sobrescribe (db : DB) (email t1 t2 : String) (now1 now2 : Nat)
    (hex : ∃ u ∈ db.usuarios, u.email = email)
    (h1 : ∀ u ∈ db.usuarios, u.reset_token ≠ some t1)
    (hne : t2 ≠ t1) :
    (∃ u ∈ ((olvide_password ((olvide_password db email t1 now1).2) email t2 now2).2).usuarios,
      u.reset_token = some t2 ∧ u.token_expiration = some (now2 + 3600)) ∧
    (∀ u ∈ ((olvide_password ((olvide_password db email t1 now1).2) email t2 now2).2).usuarios,
      u.reset_token ≠ some t1) ∧
    (∀ (password : String) (now3 : Nat),
      reset_password ((olvide_password ((olvide_password db email t1 now1).2) email t2
          now2).2) t1 password now3 =
        (ResetResult.invalidOrExpired,
          ((olvide_password ((olvide_password db email t1 now1).2) email t2 now2).2))) := by
  obtain ⟨u0, hu0, hue⟩ := hex
  have hfind1 : (db.usuarios.find? (fun u => u.email == email)).isSome := by
    rw [List.find?_isSome]
    exact ⟨u0, hu0, by simp [hue]⟩
  obtain ⟨v, hv⟩ := Option.isSome_iff_exists.mp hfind1
  have hdb1 : (olvide_password db email t1 now1).2 =
      { db with usuarios := updateFirst (fun u => u.email == email) (ponToken t1 (now1 + 3600)) db.usuarios } :=
    congrArg Prod.snd (olvide_password_eq_some db email t1 now1 v hv)
  have hmem1 : ponToken t1 (now1 + 3600) v ∈
      updateFirst (fun u => u.email == email) (ponToken t1 (now1 + 3600)) db.usuarios :=
    updateFirst_of_find? hv
  have hpv := List.find?_some hv
  have hfind2 : (((olvide_password db email t1 now1).2).usuarios.find?
      (fun u => u.email == email)).isSome := by
    rw [List.find?_isSome]
    refine ⟨ponToken t1 (now1 + 3600) v, ?_, ?_⟩
    · rw [hdb1]
      exact hmem1
    · exact hpv
  obtain ⟨w, hw⟩ := Option.isSome_iff_exists.mp hfind2
  have hdb2 : (olvide_password ((olvide_password db email t1 now1).2) email t2 now2).2 =
      { (olvide_password db email t1 now1).2 with
        usuarios := updateFirst (fun u => u.email == email) (ponToken t2 (now2 + 3600)) ((olvide_password db email t1 now1).2).usuarios } :=
    congrArg Prod.snd
      (olvide_password_eq_some ((olvide_password db email t1 now1).2) email t2 now2 w hw)
  have hcomp : (fun x => ponToken t2 (now2 + 3600) (ponToken t1 (now1 + 3600) x)) =
      ponToken t2 (now2 + 3600) := funext fun x => rfl
  have husers2 :
      ((olvide_password ((olvide_password db email t1 now1).2) email t2 now2).2).usuarios =
      updateFirst (fun u => u.email == email) (ponToken t2 (now2 + 3600)) db.usuarios := by
    rw [hdb2]
    show updateFirst (fun u => u.email == email) (ponToken t2 (now2 + 3600))
        ((olvide_password db email t1 now1).2).usuarios =
      updateFirst (fun u => u.email == email) (ponToken t2 (now2 + 3600)) db.usuarios
    rw [hdb1]
    show updateFirst (fun u => u.email == email) (ponToken t2 (now2 + 3600))
        (updateFirst (fun u => u.email == email) (ponToken t1 (now1 + 3600)) db.usuarios) =
      updateFirst (fun u => u.email == email) (ponToken t2 (now2 + 3600)) db.usuarios
    rw [@updateFirst_updateFirst _ (fun u => u.email == email) (ponToken t2 (now2 + 3600))
      (ponToken t1 (now1 + 3600)) db.usuarios (fun x => rfl), hcomp]
  refine ⟨?_, ?_, ?_⟩
  · refine ⟨ponToken t2 (now2 + 3600) v, ?_, rfl, rfl⟩
    rw [husers2]
    exact updateFirst_of_find? hv
  · intro u hu
    rw [husers2] at hu
    rcases mem_updateFirst hu with h | ⟨x, hx, hxf⟩
    · exact h1 u h
    · subst hxf
      intro hcontra
      exact hne (by simpa [ponToken] using hcontra)
  · intro password now3
    have hnone :
        (((olvide_password ((olvide_password db email t1 now1).2) email t2
          now2).2).usuarios.find? (fun u => u.reset_token == some t1)) = none := by
      rw [List.find?_eq_none]
      intro x hx
      intro hb
      have heq : x.reset_token = some t1 := by simpa using hb
      rw [husers2] at hx
      rcases mem_updateFirst hx with h | ⟨y, hy, hyf⟩
      · exact h1 x h heq
      · subst hyf
        exact hne (by simpa [ponToken] using heq)
    simp only [reset_password, hnone]

/-- Witness for C10 at a concrete input: after two forgot-password requests
for `ana@x.com`, the first token `t1` no longer redeems. -/
theorem olvide_password_sobrescribe_witness :
    reset_password ((olvide_password ((olvide_password dbW "ana@x.com" "t1" 10).2)
        "ana@x.com" "t2" 20).2) "t1" "pw" 0 =
      (ResetResult.invalidOrExpired,
        ((olvide_password ((olvide_password dbW "ana@x.com" "t1" 10).2)
          "ana@x.com" "t2" 20).2)) :=
  (olvide_password_sobrescribe dbW "ana@x.com" "t1" "t2" 10 20 ⟨uW, by decide, rfl⟩
    (by decide) (by decide)).2.2 "pw" 0

/-- C8 counterexample: the claim that any input already containing
`/embed/` is stored unchanged fails, because the branches are tested in
order on raw substrings (`app.py:284-290`): `https://youtu.be/embed/ABC`
contains `/embed/` but also `youtu.be/`, so it is rewritten to
`https://www.youtube.com/embed/embed/ABC`. -/
theorem normaliza_url_embed_no_intacta :
    contiene "https://youtu.be/embed/ABC" "/embed/" = true ∧
    normaliza_url "https://youtu.be/embed/ABC" ≠ "https://youtu.be/embed/ABC" := by decide

/-- C8 (amended): a `watch?v=` URL and a `youtu.be/` URL are both stored in
the canonical embed form, and an input containing `/embed/` that matches
neither rewrite pattern (neither `watch?v=` nor `youtu.be/` occurs in it)
is stored unchanged. -/
theorem normaliza_url_correcta :
    normaliza_url "https://www.youtube.com/watch?v=ABC123" =
      "https://www.youtube.com/embed/ABC123" ∧
    normaliza_url "https://youtu.be/ABC123" = "https://www.youtube.com/embed/ABC123" ∧
    (∀ url, contiene url "/embed/" = true → contiene url "watch?v=" = false →
      contiene url "youtu.be/" = false → normaliza_url url = url) := by
  refine ⟨by decide, by decide, ?_⟩
  intro url h1 h2 h3
  simp [normaliza_url, h2, h3]

/-- Witness for C8 (amended) at a concrete input: a canonical embed URL
matching neither pattern passes through unchanged. -/
theorem normaliza_url_correcta_witness :
    normaliza_url "https://www.vimeo.com/embed/X" = "https://www.vimeo.com/embed/X" :=
  normaliza_url_correcta.2.2 "https://www.vimeo.com/embed/X" (by decide) (by decide)
    (by decide)

/-- C9: deleting course 1, which has a dependent video and enrollment,
does not cascade: with no delete cascade configured on the relationships,
SQLAlchemy's default nullify rule collides with the `nullable=False` child
columns and the commit fails with an `IntegrityError` (here `serverError`),
so the course, its video and its enrollment all remain — dependents are
never removed by the code. -/
theorem borrar_curso_no_cascada :
    dbA.videos.any (fun v => v.curso_id == 1) = true ∧
    dbA.inscripciones.any (fun i => i.curso_id == 1) = true ∧
    borrar_curso uAdm dbA 1 = (Resp.serverError, dbA) ∧
    (∃ v ∈ ((borrar_curso uAdm dbA 1).2).videos, v.curso_id = 1) ∧
    (∃ i ∈ ((borrar_curso uAdm dbA 1).2).inscripciones, i.curso_id = 1) := by decide

end ProyectoCursos
